import Mathlib

/-!
Shallow embedding of the self-healing monitoring subsystem of
webtem-vite-react-ssr-tailwind, covering:
  * `FixRegistryClass` (registerFix, findFix, matchesFix, applyFix),
  * `ConsoleInterceptorClass` (processMessage, shouldFilterMessage),
  * `ErrorMonitorClass` (reportError, loadPersistedErrors, getErrorStats),
  * `MonitoringSystem.getSystemHealth`,
  * `ErrorBoundary.handleManualRetry`.

Modelling conventions:
  * JavaScript numbers used for rule statistics are modelled as `ℚ`
    (the success-rate arithmetic of the source only combines rationals);
    counters are `ℕ`.
  * ISO-8601 UTC timestamp strings are modelled as `ℕ` epoch milliseconds:
    on same-format ISO-UTC strings, lexicographic string comparison (the
    comparison the source performs) coincides with numeric comparison of
    the instants, so nothing is lost by this change of representation.
  * A JavaScript value that may be a `RegExp` or a string is a `JSPattern`;
    a RegExp is kept abstract as its `test` function on strings.
  * A zero-argument condition callback is modelled by its behaviour at the
    single call the code performs: `some b` when it returns `b`, `none`
    when it throws (the source catches the throw and treats it as false).
  * Field absence in loosely-typed records is `Option`; the source's JS
    truthiness checks on strings treat the empty string as absent.
-/

/-- JavaScript `String.prototype.isPrefixOf`-style helper: does `pat` occur
as a contiguous substring of the character list? (Backs `strIncludes`.) -/
def charsIncl (pat : List Char) : List Char → Bool
  | [] => pat.isEmpty
  | c :: rest => pat.isPrefixOf (c :: rest) || charsIncl pat rest

/-- JavaScript `s.includes(pat)`: substring test. -/
def strIncludes (s pat : String) : Bool :=
  charsIncl pat.toList s.toList

/-- A JavaScript `RegExp | string` pattern value.  A RegExp is abstracted
by its `test` function. -/
inductive JSPattern where
  | regex (testFun : String → Bool)
  | str (s : String)

/-- `pattern instanceof RegExp ? pattern.test(s) : s.includes(pattern)` —
the per-pattern check used by `ConsoleInterceptorClass.shouldFilterMessage`. -/
def JSPattern.check (p : JSPattern) (s : String) : Bool :=
  match p with
  | .regex t => t s
  | .str pat => strIncludes s pat

/-- A JavaScript `Error` value: `message` and optional `stack`. -/
structure JSError where
  message : String
  stack : Option String
deriving DecidableEq

/-! ## FixRegistryClass (second half of src/src/monitoring/ConsoleInterceptor.ts) -/

/-- The `ErrorFix` record of the source.  `fixFunction` is always invoked
through `applyFix`, whose outcome we pass in explicitly (`FixOutcome`), so
only its JS-truthiness (presence) is kept, for the `registerFix`
validation.  `conditions` entries are summarised by their behaviour at the
one call `matchesFix` performs. -/
structure ErrorFix where
  id : String
  name : String
  description : String
  errorPattern : Option JSPattern
  errorTypes : List String
  hasFixFunction : Bool
  conditions : Option (List (Option Bool))
  priority : Int
  category : String
  successRate : Option ℚ
  lastUsed : Option Nat
  timesUsed : Option Nat

/-- One entry of `FixRegistryClass.fixHistory`. -/
structure FixHistoryEntry where
  fix : ErrorFix
  success : Bool
  timestamp : Nat
  error : JSError

/-- The mutable state of `FixRegistryClass`: its rule list and history. -/
structure FixRegistry where
  fixes : List ErrorFix
  fixHistory : List FixHistoryEntry

/-- JS truthiness of the `errorPattern` field: absent (`undefined`) and the
empty string are falsy; a RegExp object and a non-empty string are truthy. -/
def patternTruthy : Option JSPattern → Bool
  | none => false
  | some (.str s) => !(s == "")
  | some (.regex _) => true

/-- The validation at the top of `registerFix`:
`!fix.id || !fix.name || !fix.errorPattern || !fix.fixFunction` throws.
This is its negation: all required fields are (JS-)truthy. -/
def hasRequiredFixFields (fix : ErrorFix) : Bool :=
  !(fix.id == "") && !(fix.name == "") && patternTruthy fix.errorPattern
    && fix.hasFixFunction

/-- `sortFixesByPriority`: `this.fixes.sort((a, b) => b.priority - a.priority)`.
JS sort is stable; a stable descending-by-priority sort is a unique function
of the input, realised here by Mathlib's stable `insertionSort`. -/
def sortFixesByPriority (fixes : List ErrorFix) : List ErrorFix :=
  fixes.insertionSort (fun a b => b.priority ≤ a.priority)

/-- `registerFix`.  The two `throw` statements precede every mutation of
`this.fixes`, so a failed call leaves the registry exactly as it was: we
return the unchanged registry together with `some errorMessage`.  On
success the optional statistics fields are defaulted (`|| 0`, `|| now`)
and the rule list is re-sorted. -/
def registerFix (reg : FixRegistry) (fix : ErrorFix) (now : Nat) :
    FixRegistry × Option String :=
  if !(hasRequiredFixFields fix) then
    (reg, some "Invalid fix registration: missing required fields")
  else if reg.fixes.any (fun f => f.id == fix.id) then
    (reg, some ("Fix with ID \x22" ++ fix.id ++ "\x22 already exists"))
  else
    let completeFix : ErrorFix :=
      { fix with
        successRate := some (fix.successRate.getD 0),
        lastUsed := some (fix.lastUsed.getD now),
        timesUsed := some (fix.timesUsed.getD 0) }
    ({ reg with fixes := sortFixesByPriority (reg.fixes ++ [completeFix]) },
     none)

/-- `matchesFix(error, fix)`: the pattern must test positive against the
message or the stack (`error.message || ''`, `error.stack || ''`), and
every optional condition callback must return `true` without throwing
(a throwing condition is caught and yields `false`).  When `errorPattern`
is absent, JS coerces it to the text "undefined" inside `includes`. -/
def matchesFix (error : JSError) (fix : ErrorFix) : Bool :=
  let message := error.message
  let stack := error.stack.getD ""
  let patternMatches :=
    match fix.errorPattern with
    | some (.regex t) => t message || t stack
    | some (.str pat) => strIncludes message pat || strIncludes stack pat
    | none => strIncludes message "undefined" || strIncludes stack "undefined"
  if !patternMatches then
    false
  else
    match fix.conditions with
    | none => true
    | some conditions => conditions.all (fun c => c == some true)

/-- `findFix(error)`: return the first rule of `this.fixes` (kept in
descending-priority order) that matches. -/
def findFix (fixes : List ErrorFix) (error : JSError) : Option ErrorFix :=
  fixes.find? (fun fix => matchesFix error fix)

/-- Outcome of one `fix.fixFunction(error, context)` call: it resolves to a
boolean, or it throws. -/
inductive FixOutcome where
  | returns (success : Bool)
  | throws

/-- The statistics mutation inside `applyFix` after a non-throwing
`fixFunction` call: `timesUsed` is incremented (from `timesUsed || 0`),
`lastUsed` is set to now, and only on success is `successRate` recomputed
as `((successRate * (timesUsed - 1)) + 1) / timesUsed`. -/
def applyFixUpdate (fix : ErrorFix) (success : Bool) (now : Nat) : ErrorFix :=
  let timesUsed : Nat := fix.timesUsed.getD 0 + 1
  let fix1 := { fix with timesUsed := some timesUsed, lastUsed := some now }
  if success then
    let currentSuccessRate : ℚ := fix1.successRate.getD 0
    { fix1 with
      successRate :=
        some ((currentSuccessRate * ((timesUsed : ℚ) - 1) + 1) / (timesUsed : ℚ)) }
  else
    fix1

/-- `applyFix(fix, error, context)`.  On a non-throwing call: update the
rule statistics (the rule object is aliased by `this.fixes`, modelled as
replacement by the unique id), append a history entry, trim the history to
its most recent 50 entries when it exceeds 100, and return the outcome.
When `fixFunction` throws: the statistics lines are skipped, a failed
history entry is appended (without the trim), and `false` is returned. -/
def applyFix (reg : FixRegistry) (fix : ErrorFix) (outcome : FixOutcome)
    (now : Nat) (error : JSError) : FixRegistry × ErrorFix × Bool :=
  match outcome with
  | .returns success =>
    let fix1 := applyFixUpdate fix success now
    let hist := reg.fixHistory ++ [⟨fix1, success, now, error⟩]
    let hist := if hist.length > 100 then hist.drop (hist.length - 50) else hist
    ({ fixes := reg.fixes.map (fun f => if f.id == fix.id then fix1 else f),
       fixHistory := hist },
     fix1, success)
  | .throws =>
    ({ reg with fixHistory := reg.fixHistory ++ [⟨fix, false, now, error⟩] },
     fix, false)

/-- A sequence of non-throwing `applyFix` calls on one rule, tracking the
rule's statistics: each element is (success, now). -/
def applyFixRun (fix : ErrorFix) (outs : List (Bool × Nat)) : ErrorFix :=
  outs.foldl (fun f o => applyFixUpdate f o.1 o.2) fix

/-- Rule list in descending-priority order (the `sortFixesByPriority`
invariant of the registry). -/
def SortedByPriority (fixes : List ErrorFix) : Prop :=
  List.Sorted (fun a b => b.priority ≤ a.priority) fixes

/-! ## ConsoleInterceptorClass (first half of src/src/monitoring/ConsoleInterceptor.ts) -/

/-- The five intercepted console levels. -/
inductive ConsoleLevel where
  | error | warn | info | debug | log
deriving DecidableEq

/-- One argument of an intercepted console call, as far as the
stringification in `processMessage` distinguishes them: a string is kept,
an `Error` contributes its message, an object contributes its JSON (or
`String(arg)` fallback) serialisation, and any other value contributes
`String(arg)`. -/
inductive ConsoleArg where
  | str (s : String)
  | errObj (message : String) (stack : Option String)
  | obj (serialized : String)
  | prim (s : String)
deriving DecidableEq

/-- The `args.map(...)` body of `processMessage`. -/
def stringifyArg : ConsoleArg → String
  | .str s => s
  | .errObj m _ => m
  | .obj s => s
  | .prim s => s

/-- The `CapturedMessage` record. -/
structure CapturedMessage where
  level : ConsoleLevel
  message : String
  args : List ConsoleArg
  timestamp : Nat
  stack : Option String
deriving DecidableEq

/-- The `ConsoleInterceptorConfig` record. -/
structure ConsoleInterceptorConfig where
  captureErrors : Bool
  captureWarnings : Bool
  captureInfo : Bool
  captureDebug : Bool
  filterPatterns : Option (List JSPattern)
  maxCapturedMessages : Nat
  preserveOriginal : Bool

/-- `shouldFilterMessage(message)`: true when some `filterPatterns` entry
matches (substring for strings, `test` for RegExps); false when the
config has no patterns. -/
def shouldFilterMessage (config : ConsoleInterceptorConfig) (message : String) :
    Bool :=
  match config.filterPatterns with
  | none => false
  | some patterns => patterns.any (fun p => p.check message)

/-! ### ErrorMonitorClass (src/src/monitoring/ErrorMonitor.ts) -/

/-- The `ErrorReport` record.  The nested `error: Error` contributes its
`message` and `stack`; `errorInfo` and `context` are kept as opaque
serialised payloads (never inspected by the verified operations). -/
structure ErrorReport where
  type : String
  message : String
  stack : Option String
  errorInfo : Option String
  timestamp : Nat
  context : Option String
  userAgent : Option String
  url : Option String
  userId : Option String
  sessionId : Option String
deriving DecidableEq

/-- The mutable state of `ErrorMonitorClass` together with the ambient
browser environment it reads: `navigator.userAgent` and
`window.location.href` are `none` outside a browser. -/
structure ErrorMonitorState where
  errors : List ErrorReport
  maxStoredErrors : Nat
  sessionId : String
  navigatorUserAgent : Option String
  windowUrl : Option String
deriving DecidableEq

/-- The enhancement at the top of `reportError`: the spread of the incoming
report followed by unconditional `sessionId`, `userAgent` and `url`
assignments (they overwrite whatever the report carried). -/
def enhanceReport (st : ErrorMonitorState) (report : ErrorReport) : ErrorReport :=
  { report with
    sessionId := some st.sessionId,
    userAgent := st.navigatorUserAgent,
    url := st.windowUrl }

/-- `reportError(report)`: unshift the enhanced report onto `this.errors`,
then truncate to the first `maxStoredErrors` entries when over capacity.
(Logging, listener notification and best-effort persistence do not change
this state.) -/
def reportError (st : ErrorMonitorState) (report : ErrorReport) :
    ErrorMonitorState :=
  let errors := enhanceReport st report :: st.errors
  let errors :=
    if errors.length > st.maxStoredErrors then errors.take st.maxStoredErrors
    else errors
  { st with errors := errors }

/-- `loadPersistedErrors()`: `stored` is the parsed `data.errors` array from
the key-value store (`none` when nothing was stored, parsing failed, or the
payload was not an array, in which case nothing happens).  Entries with
`timestamp > oneDayAgo` are kept and prepended ahead of the live errors. -/
def loadPersistedErrors (st : ErrorMonitorState)
    (stored : Option (List ErrorReport)) (now : Nat) : ErrorMonitorState :=
  match stored with
  | none => st
  | some persisted =>
    let oneDayAgo := now - 24 * 60 * 60 * 1000
    let recentErrors := persisted.filter (fun e => decide (oneDayAgo < e.timestamp))
    { st with errors := recentErrors ++ st.errors }

/-- The fields of `getErrorStats()` consumed by the verified operations:
`totalErrors` and `recentErrors = this.errors.slice(0, 10)`.  (The
by-type/by-message groupings and `topErrors` are reporting-only and are
not referenced by any verified property.) -/
structure ErrorStats where
  totalErrors : Nat
  recentErrors : List ErrorReport
deriving DecidableEq

/-- `getErrorStats()`, restricted to the fields above. -/
def getErrorStats (st : ErrorMonitorState) : ErrorStats :=
  { totalErrors := st.errors.length, recentErrors := st.errors.take 10 }

/-! ### MonitoringSystem (src/src/monitoring/index-style facade) -/

/-- The record returned by `MonitoringSystem.getSystemHealth` (the
`systemUptime` string is a wall-clock readout and is omitted). -/
structure SystemHealth where
  status : String
  errorMonitor : Bool
  consoleInterceptor : Bool
  fixRegistry : Bool
  recentErrors : Nat
deriving DecidableEq

/-- `getSystemHealth()`: count, among `getErrorStats().recentErrors` (the
10 most recent stored reports), those with `timestamp` after
`Date.now() - 5 * 60 * 1000`; status is critical above 10, warning above
5, healthy otherwise.  `isIntercepting` and `fixesCount` are the states of
the other two singletons. -/
def getSystemHealth (st : ErrorMonitorState) (now : Nat)
    (isIntercepting : Bool) (fixesCount : Nat) : SystemHealth :=
  let errorStats := getErrorStats st
  let fiveMinutesAgo := now - 5 * 60 * 1000
  let recentErrors :=
    (errorStats.recentErrors.filter
      (fun e => decide (fiveMinutesAgo < e.timestamp))).length
  let status :=
    if recentErrors > 10 then "critical"
    else if recentErrors > 5 then "warning"
    else "healthy"
  { status := status,
    errorMonitor := true,
    consoleInterceptor := isIntercepting,
    fixRegistry := fixesCount > 0,
    recentErrors := recentErrors }

/-! ### processMessage (back to ConsoleInterceptorClass) -/

/-- `reportToErrorMonitor(capturedMessage, args)`: forward a
`console_error` report built from the first `Error` argument, or from an
`Error` synthesised out of the joined message (given the captured stack
when present).  The `context` payload keeps the original message. -/
def reportFromCaptured (cm : CapturedMessage) : ErrorReport :=
  let errArg := cm.args.find? (fun a =>
    match a with | .errObj _ _ => true | _ => false)
  match errArg with
  | some (.errObj m s) =>
    { type := "console_error", message := m, stack := s, errorInfo := none,
      timestamp := cm.timestamp, context := some cm.message,
      userAgent := none, url := none, userId := none, sessionId := none }
  | _ =>
    { type := "console_error", message := cm.message, stack := cm.stack,
      errorInfo := none, timestamp := cm.timestamp, context := some cm.message,
      userAgent := none, url := none, userId := none, sessionId := none }

/-- What one `processMessage(level, args)` call does to the interceptor
state and to the outside: the new capture buffer, the messages handed to
every capture listener during the call, and the reports forwarded to
`ErrorMonitor.reportError`.  A filtered message returns early with
nothing recorded, delivered, or forwarded. -/
structure ProcessMessageResult where
  capturedMessages : List CapturedMessage
  delivered : List CapturedMessage
  reported : List ErrorReport
deriving DecidableEq

/-- `processMessage(level, args)`: stringify-and-join the arguments, drop
the message if `shouldFilterMessage` matches, otherwise capture a stack
for error level (`newErrorStack` is the ambient `new Error().stack`),
unshift into the capped buffer, notify listeners, and forward errors to
the ErrorMonitor. -/
def processMessage (config : ConsoleInterceptorConfig)
    (captured : List CapturedMessage) (level : ConsoleLevel)
    (args : List ConsoleArg) (now : Nat) (newErrorStack : Option String) :
    ProcessMessageResult :=
  let message := String.intercalate " " (args.map stringifyArg)
  if shouldFilterMessage config message then
    { capturedMessages := captured, delivered := [], reported := [] }
  else
    let stack := if level = ConsoleLevel.error then newErrorStack else none
    let capturedMessage : CapturedMessage :=
      { level := level, message := message, args := args, timestamp := now,
        stack := stack }
    let msgs := capturedMessage :: captured
    let msgs :=
      if msgs.length > config.maxCapturedMessages then
        msgs.take config.maxCapturedMessages
      else msgs
    { capturedMessages := msgs,
      delivered := [capturedMessage],
      reported :=
        if level = ConsoleLevel.error then [reportFromCaptured capturedMessage]
        else [] }

/-! ### ErrorBoundary (src/src/monitoring/ErrorBoundary.tsx) -/

/-- The `State` of the `ErrorBoundary` component.  The `error` object is
kept as its message. -/
structure ErrorBoundaryState where
  hasError : Bool
  error : Option String
  errorInfo : Option String
  isRecovering : Bool
  recoveryAttempts : Nat
  autoFixApplied : Bool
deriving DecidableEq

/-- `maxRecoveryAttempts = 3`. -/
def maxRecoveryAttempts : Nat := 3

/-- `handleManualRetry`: the setState performed by the manual Retry button.
It clears the failure fields and flags; `recoveryAttempts` is not among
the assigned fields, so it keeps its value. -/
def handleManualRetry (s : ErrorBoundaryState) : ErrorBoundaryState :=
  { s with
    hasError := false,
    error := none,
    errorInfo := none,
    isRecovering := false,
    autoFixApplied := false }

/-! ## Theorems -/

/-- Auxiliary: a run of non-throwing applications adds its length to
`timesUsed`. -/
lemma applyFixRun_timesUsed (outs : List (Bool × Nat)) :
    ∀ (fix : ErrorFix) (n : Nat), fix.timesUsed = some n →
      (applyFixRun fix outs).timesUsed = some (n + outs.length) := by
  induction outs with
  | nil => intro fix n h; simpa [applyFixRun] using h
  | cons o t ih =>
    intro fix n h
    have hstep : (applyFixUpdate fix o.1 o.2).timesUsed = some (n + 1) := by
      unfold applyFixUpdate
      split <;> simp [h]
    have := ih (applyFixUpdate fix o.1 o.2) (n + 1) hstep
    have hrw : applyFixRun fix (o :: t) = applyFixRun (applyFixUpdate fix o.1 o.2) t := rfl
    rw [hrw, this]
    congr 1
    simp
    omega

/-- A built-in rule as completed by registration (fresh statistics), used as
concrete input for the claim about `applyFix` statistics. -/
def c1Fix : ErrorFix :=
  { id := "network-error", name := "Network Error Recovery",
    description := "Handles network connectivity issues",
    errorPattern := some (.str "Network Error"),
    errorTypes := ["runtime_error", "unhandled_rejection"],
    hasFixFunction := true, conditions := none, priority := 4,
    category := "runtime", successRate := some 0, lastUsed := some 0,
    timesUsed := some 0 }

/-- Claim C1, counterexample: after one successful and then one failed
application of a fresh rule (n = 2, k = 1), `timesUsed` is 2 but
`successRate` is 1, not k/n = 1/2: the failed application leaves
`successRate` untouched instead of recomputing the running mean. -/
theorem C1_applyFix_counterexample :
    (applyFixRun c1Fix [(true, 1), (false, 2)]).timesUsed = some 2
  ∧ (applyFixRun c1Fix [(true, 1), (false, 2)]).successRate = some 1
  ∧ (applyFixRun c1Fix [(true, 1), (false, 2)]).successRate ≠ some (1 / 2) := by
  refine ⟨?_, ?_, ?_⟩ <;> simp [applyFixRun, applyFixUpdate, c1Fix]

/-- Claim C1, amended: every non-throwing application increments
`timesUsed` and sets `lastUsed`; `successRate` is recomputed as
`((successRate * (timesUsed - 1)) + 1) / timesUsed` only on success and is
left unchanged on failure; a throwing action updates no statistics; and
after n non-throwing applications of a fresh rule `timesUsed = n`. -/
theorem C1_applyFix_stats_amended (fix : ErrorFix) (b : Bool) (now : Nat)
    (outs : List (Bool × Nat)) (reg : FixRegistry) (error : JSError)
    (h0 : fix.timesUsed = some 0) :
    (applyFixUpdate fix b now).timesUsed = some (fix.timesUsed.getD 0 + 1)
  ∧ (applyFixUpdate fix b now).lastUsed = some now
  ∧ (applyFixUpdate fix b now).successRate =
      (if b then
        some ((fix.successRate.getD 0 * (((fix.timesUsed.getD 0 + 1 : ℕ) : ℚ) - 1) + 1)
          / ((fix.timesUsed.getD 0 + 1 : ℕ) : ℚ))
      else fix.successRate)
  ∧ (applyFix reg fix FixOutcome.throws now error).2.1 = fix
  ∧ (applyFixRun fix outs).timesUsed = some outs.length := by
  refine ⟨?_, ?_, ?_, rfl, ?_⟩
  · unfold applyFixUpdate; split <;> simp
  · unfold applyFixUpdate; split <;> simp
  · unfold applyFixUpdate; cases b <;> simp
  · simpa using applyFixRun_timesUsed outs fix 0 h0

/-- Claim C1, witness: the amended statement at a concrete rule and a
concrete three-application run. -/
theorem C1_applyFix_stats_witness :
    c1Fix.timesUsed = some 0
  ∧ (applyFixRun c1Fix [(true, 1), (false, 2), (true, 3)]).timesUsed = some 3 :=
  ⟨rfl,
   (C1_applyFix_stats_amended c1Fix true 1 [(true, 1), (false, 2), (true, 3)]
     ⟨[], []⟩ ⟨"", none⟩ rfl).2.2.2.2⟩

/-- The terminal (Exhausted) boundary state: `recoveryAttempts` has reached
`maxRecoveryAttempts`. -/
def c2Exhausted : ErrorBoundaryState :=
  { hasError := true, error := some "Maximum update depth exceeded",
    errorInfo := some "component stack", isRecovering := false,
    recoveryAttempts := 3, autoFixApplied := false }

/-- Claim C2, counterexample: from the Exhausted state the manual Retry
handler clears the failure but leaves `recoveryAttempts` at 3, not 0 —
`recoveryAttempts` is not among the fields reset by `handleManualRetry`. -/
theorem C2_manualRetry_counterexample :
    c2Exhausted.recoveryAttempts = maxRecoveryAttempts
  ∧ (handleManualRetry c2Exhausted).hasError = false
  ∧ (handleManualRetry c2Exhausted).recoveryAttempts = 3
  ∧ (handleManualRetry c2Exhausted).recoveryAttempts ≠ 0 := by
  decide

/-- Claim C2, amended: for every boundary state, `handleManualRetry`
returns to the stable rendering state — `hasError` false, `error` and
`errorInfo` cleared, `isRecovering` and `autoFixApplied` false — while
`recoveryAttempts` keeps its previous value (it is not reset to 0). -/
theorem C2_manualRetry_amended (s : ErrorBoundaryState) :
    handleManualRetry s =
      { hasError := false, error := none, errorInfo := none,
        isRecovering := false, recoveryAttempts := s.recoveryAttempts,
        autoFixApplied := false } := rfl

/-- A monitor state whose session id differs from the one an incoming
report carries. -/
def c8Monitor : ErrorMonitorState :=
  { errors := [], maxStoredErrors := 100, sessionId := "monitor-session",
    navigatorUserAgent := some "agent-1", windowUrl := some "http://localhost:3000/" }

/-- An incoming report that already carries its own session id, origin and
user agent. -/
def c8Report : ErrorReport :=
  { type := "console_error", message := "boom", stack := some "trace",
    errorInfo := none, timestamp := 5, context := some "ctx",
    userAgent := some "caller-agent", url := some "http://example.com/",
    userId := some "u1", sessionId := some "caller-session" }

/-- Claim C8, counterexample: the stored event does not retain the
caller-provided `sessionId` — `reportError` overwrites it (and `userAgent`
and `url`) unconditionally with the monitor's values. -/
theorem C8_report_overwrites_counterexample :
    c8Report.sessionId = some "caller-session"
  ∧ (reportError c8Monitor c8Report).errors.head?.map (fun e => e.sessionId)
      = some (some "monitor-session")
  ∧ ¬ ((reportError c8Monitor c8Report).errors.head?.map (fun e => e.sessionId)
      = some (some "caller-session")) := by
  decide

/-- Auxiliary: `reportError` in closed form — prepend the enhanced report
and truncate to capacity; no other field of the state changes. -/
lemma reportError_errors_eq (st : ErrorMonitorState) (r : ErrorReport) :
    reportError st r =
      { st with errors := (enhanceReport st r :: st.errors).take st.maxStoredErrors } := by
  unfold reportError
  by_cases h : (enhanceReport st r :: st.errors).length > st.maxStoredErrors
  · simp [h]
  · simp only [if_neg h]
    rw [List.take_of_length_le (by omega)]

/-- Claim C8, amended: `reportError` stamps `sessionId`, `userAgent` and
`url` unconditionally (overwriting any values the event carried), leaves
every other field of the event unchanged, and stores the result at the
front of the capacity-truncated ledger. -/
theorem C8_report_fields_amended (st : ErrorMonitorState) (r : ErrorReport) :
    (enhanceReport st r).sessionId = some st.sessionId
  ∧ (enhanceReport st r).userAgent = st.navigatorUserAgent
  ∧ (enhanceReport st r).url = st.windowUrl
  ∧ (enhanceReport st r).type = r.type
  ∧ (enhanceReport st r).message = r.message
  ∧ (enhanceReport st r).stack = r.stack
  ∧ (enhanceReport st r).errorInfo = r.errorInfo
  ∧ (enhanceReport st r).timestamp = r.timestamp
  ∧ (enhanceReport st r).context = r.context
  ∧ (enhanceReport st r).userId = r.userId
  ∧ (reportError st r).errors
      = (enhanceReport st r :: st.errors).take st.maxStoredErrors := by
  refine ⟨rfl, rfl, rfl, rfl, rfl, rfl, rfl, rfl, rfl, rfl, ?_⟩
  rw [reportError_errors_eq]

/-- A reference instant for the health-status claim. -/
def c3Now : Nat := 1000000000

/-- A failure event reported `i` milliseconds before `c3Now`. -/
def c3Event (i : Nat) : ErrorReport :=
  { type := "console_error", message := "e", stack := none, errorInfo := none,
    timestamp := c3Now - i, context := none, userAgent := none, url := none,
    userId := none, sessionId := none }

/-- A ledger holding 12 failures, all reported within the last few
milliseconds (well inside the 5-minute window). -/
def c3State : ErrorMonitorState :=
  { errors := (List.range 12).map c3Event, maxStoredErrors := 100,
    sessionId := "s", navigatorUserAgent := none, windowUrl := none }

/-- Claim C3: the critical status is unreachable.  `getSystemHealth`
counts 5-minute-recent failures only among `getErrorStats().recentErrors`
— the 10 most recent stored events — so the count never exceeds 10 and
the `> 10 ⇒ critical` branch is dead: with 12 in-window failures in the
ledger the returned status is `warning`, not `critical` as the
documentation states. -/
theorem C3_systemHealth_code_bug :
    (∀ (st : ErrorMonitorState) (now : Nat) (b : Bool) (n : Nat),
      (getSystemHealth st now b n).status ≠ "critical")
  ∧ c3State.errors.length = 12
  ∧ (c3State.errors.filter
      (fun e => decide (c3Now - 5 * 60 * 1000 < e.timestamp))).length = 12
  ∧ (getSystemHealth c3State c3Now true 7).status = "warning" := by
  refine ⟨?_, by decide, by decide, by decide⟩
  intro st now b n
  have hform : (getSystemHealth st now b n).status =
      (if ((st.errors.take 10).filter
            (fun e => decide (now - 5 * 60 * 1000 < e.timestamp))).length > 10
        then "critical"
        else if ((st.errors.take 10).filter
            (fun e => decide (now - 5 * 60 * 1000 < e.timestamp))).length > 5
          then "warning" else "healthy") := rfl
  have hle : ((st.errors.take 10).filter
      (fun e => decide (now - 5 * 60 * 1000 < e.timestamp))).length ≤ 10 := by
    calc ((st.errors.take 10).filter
        (fun e => decide (now - 5 * 60 * 1000 < e.timestamp))).length
        ≤ (st.errors.take 10).length := List.length_filter_le _ _
      _ ≤ 10 := by simp [List.length_take]
  rw [hform, if_neg (by omega)]
  split <;> decide

/-- Claim C6: `registerFix` rejects a rule with a missing (JS-falsy)
required field, and rejects a rule whose id is already registered; in both
cases the call reports an error and the registry is exactly as it was
before the call. -/
theorem C6_registerFix_rejects (reg : FixRegistry) (fix : ErrorFix) (now : Nat)
    (h : hasRequiredFixFields fix = false
      ∨ reg.fixes.any (fun f => f.id == fix.id) = true) :
    (registerFix reg fix now).1 = reg
  ∧ (registerFix reg fix now).2.isSome = true := by
  rcases h with h | h
  · simp [registerFix, h]
  · cases hv : hasRequiredFixFields fix
    · simp [registerFix, hv]
    · simp [registerFix, hv, h]

/-- A valid registered rule, used as the pre-existing registry content for
the duplicate-id rejection. -/
def c6Fix : ErrorFix :=
  { id := "react-key-warning", name := "React Key Warning Fix",
    description := "Attempts to resolve React key warnings",
    errorPattern := some (.str "should have a unique"),
    errorTypes := ["react_boundary", "console_error"],
    hasFixFunction := true, conditions := none, priority := 3,
    category := "ui", successRate := some 0, lastUsed := some 0,
    timesUsed := some 0 }

/-- A registry that already holds `c6Fix`. -/
def c6Registry : FixRegistry := { fixes := [c6Fix], fixHistory := [] }

/-- A second, otherwise-valid rule carrying the already-registered id. -/
def c6DupFix : ErrorFix :=
  { c6Fix with name := "Another Key Fix", priority := 9 }

/-- Claim C6, witness: registering a duplicate id into `c6Registry` is
rejected and leaves the registry unchanged. -/
theorem C6_registerFix_rejects_witness :
    (hasRequiredFixFields c6DupFix = false
      ∨ c6Registry.fixes.any (fun f => f.id == c6DupFix.id) = true)
  ∧ ((registerFix c6Registry c6DupFix 5).1 = c6Registry
      ∧ (registerFix c6Registry c6DupFix 5).2.isSome = true) :=
  ⟨Or.inr (by decide),
   C6_registerFix_rejects c6Registry c6DupFix 5 (Or.inr (by decide))⟩

/-- Claim C7: `loadPersistedErrors` merges into the live store exactly the
snapshot entries whose timestamp lies within the last 24 hours (strictly
newer than `now - 24h`), prepended ahead of the events already stored;
all older entries are discarded. -/
theorem C7_loadPersisted_window (st : ErrorMonitorState)
    (persisted : List ErrorReport) (now : Nat)
    (h : 24 * 60 * 60 * 1000 ≤ now) :
    (loadPersistedErrors st (some persisted) now).errors
      = persisted.filter
          (fun e => decide (now - 24 * 60 * 60 * 1000 < e.timestamp))
        ++ st.errors
  ∧ ∀ e : ErrorReport,
      (e ∈ (loadPersistedErrors st (some persisted) now).errors ↔
        (e ∈ persisted ∧ now < e.timestamp + 24 * 60 * 60 * 1000)
        ∨ e ∈ st.errors) := by
  constructor
  · rfl
  · intro e
    show e ∈ persisted.filter
        (fun e => decide (now - 24 * 60 * 60 * 1000 < e.timestamp))
      ++ st.errors ↔ _
    rw [List.mem_append, List.mem_filter]
    have hiff : (decide (now - 24 * 60 * 60 * 1000 < e.timestamp) = true)
        ↔ now < e.timestamp + 24 * 60 * 60 * 1000 := by
      rw [decide_eq_true_eq]
      omega
    rw [hiff]

/-- An empty monitor state. -/
def c7Monitor : ErrorMonitorState :=
  { errors := [], maxStoredErrors := 100, sessionId := "s",
    navigatorUserAgent := none, windowUrl := none }

/-- The load instant for the snapshot scenario: day 100 in milliseconds. -/
def c7Now : Nat := 100 * 86400000

/-- A snapshot entry that is 25 hours old at `c7Now`. -/
def c7EventOld : ErrorReport :=
  { type := "runtime_error", message := "old", stack := none,
    errorInfo := none, timestamp := c7Now - 90000000, context := none,
    userAgent := none, url := none, userId := none, sessionId := none }

/-- A snapshot entry that is 1 hour old at `c7Now`. -/
def c7EventNew : ErrorReport :=
  { type := "runtime_error", message := "new", stack := none,
    errorInfo := none, timestamp := c7Now - 3600000, context := none,
    userAgent := none, url := none, userId := none, sessionId := none }

/-- Claim C7, witness: loading a snapshot with a 25-hour-old and a
1-hour-old event into an empty store keeps exactly the 1-hour event. -/
theorem C7_loadPersisted_window_witness :
    24 * 60 * 60 * 1000 ≤ c7Now
  ∧ (loadPersistedErrors c7Monitor (some [c7EventOld, c7EventNew]) c7Now).errors
      = [c7EventNew] :=
  ⟨by decide,
   ((C7_loadPersisted_window c7Monitor [c7EventOld, c7EventNew] c7Now
      (by decide)).1).trans (by decide)⟩

/-- Auxiliary: truncating before appending more on the left is absorbed by
the outer truncation. -/
lemma take_append_take {α : Type} (n : Nat) (A l : List α) :
    List.take n (A ++ List.take n l) = List.take n (A ++ l) := by
  rw [List.take_append_eq_append_take, List.take_append_eq_append_take,
    List.take_take]
  congr 1
  rw [inf_eq_left.mpr (Nat.sub_le _ _)]

/-- Auxiliary: the ledger after a sequence of `reportError` calls, in
closed form: the enhanced reports in newest-first order, ahead of the
initial ledger, truncated to capacity. -/
lemma foldl_reportError_errors (reports : List ErrorReport) :
    ∀ st : ErrorMonitorState, st.errors.length ≤ st.maxStoredErrors →
      (reports.foldl reportError st).errors
        = ((reports.reverse.map (enhanceReport st)) ++ st.errors).take
            st.maxStoredErrors := by
  induction reports with
  | nil =>
    intro st h
    simpa using (List.take_of_length_le h).symm
  | cons r t ih =>
    intro st h
    rw [List.foldl_cons]
    have hlen : (reportError st r).errors.length
        ≤ (reportError st r).maxStoredErrors := by
      rw [reportError_errors_eq]
      simp [List.length_take]
    have hrec := ih (reportError st r) hlen
    rw [reportError_errors_eq st r] at hrec
    have henh : enhanceReport
        { st with errors := (enhanceReport st r :: st.errors).take st.maxStoredErrors }
        = enhanceReport st := rfl
    rw [henh] at hrec
    rw [reportError_errors_eq st r, hrec]
    show List.take st.maxStoredErrors _ = _
    rw [List.reverse_cons, List.map_append, List.append_assoc]
    exact take_append_take st.maxStoredErrors _ (enhanceReport st r :: st.errors)

/-- Claim C4: starting from any within-capacity state, after any sequence
of `reportError` calls the ledger never exceeds `maxStoredErrors`, each
report is inserted at the front (newest first), and the retained events
are exactly the most recent `maxStoredErrors` by insertion order. -/
theorem C4_reportError_capacity (st : ErrorMonitorState)
    (reports : List ErrorReport) (h : st.errors.length ≤ st.maxStoredErrors) :
    (reports.foldl reportError st).errors
      = ((reports.reverse.map (enhanceReport st)) ++ st.errors).take
          st.maxStoredErrors
  ∧ (reports.foldl reportError st).errors.length ≤ st.maxStoredErrors := by
  refine ⟨foldl_reportError_errors reports st h, ?_⟩
  rw [foldl_reportError_errors reports st h]
  simp [List.length_take]

/-- A report used to exercise the capacity theorem. -/
def c4Report (i : Nat) : ErrorReport :=
  { type := "runtime_error", message := "m", stack := none, errorInfo := none,
    timestamp := i, context := none, userAgent := none, url := none,
    userId := none, sessionId := none }

/-- Claim C4, witness: the capacity statement at the default-capacity empty
monitor and three concrete reports. -/
theorem C4_reportError_capacity_witness :
    c7Monitor.errors.length ≤ c7Monitor.maxStoredErrors
  ∧ (([c4Report 1, c4Report 2, c4Report 3].foldl reportError c7Monitor).errors
      = (([c4Report 1, c4Report 2, c4Report 3].reverse.map
          (enhanceReport c7Monitor)) ++ c7Monitor.errors).take
            c7Monitor.maxStoredErrors
    ∧ ([c4Report 1, c4Report 2, c4Report 3].foldl reportError c7Monitor).errors.length
        ≤ c7Monitor.maxStoredErrors) :=
  ⟨by decide,
   C4_reportError_capacity c7Monitor [c4Report 1, c4Report 2, c4Report 3]
     (by decide)⟩

/-- Claim C9: when the stringified-and-joined message of an intercepted
call contains a literal `filterPatterns` entry, `processMessage` returns
early: nothing is recorded in the capture buffer, nothing is delivered to
capture listeners, and nothing is forwarded to the ErrorMonitor — at
every level, including error. -/
theorem C9_filtered_message_dropped (config : ConsoleInterceptorConfig)
    (captured : List CapturedMessage) (level : ConsoleLevel)
    (args : List ConsoleArg) (now : Nat) (stk : Option String)
    (patterns : List JSPattern) (pat : String)
    (hp : config.filterPatterns = some patterns)
    (hmem : JSPattern.str pat ∈ patterns)
    (hsub : strIncludes (String.intercalate " " (args.map stringifyArg)) pat
      = true) :
    processMessage config captured level args now stk =
      { capturedMessages := captured, delivered := [], reported := [] } := by
  have hfilter : shouldFilterMessage config
      (String.intercalate " " (args.map stringifyArg)) = true := by
    unfold shouldFilterMessage
    rw [hp]
    exact List.any_eq_true.mpr
      ⟨JSPattern.str pat, hmem, by simpa [JSPattern.check] using hsub⟩
  simp [processMessage, hfilter]

/-- The interceptor configuration of the filtering scenario: the literal
text "noisy-warning" is a filter pattern. -/
def c9Config : ConsoleInterceptorConfig :=
  { captureErrors := true, captureWarnings := true, captureInfo := false,
    captureDebug := false,
    filterPatterns := some [JSPattern.str "noisy-warning"],
    maxCapturedMessages := 200, preserveOriginal := true }

/-- Claim C9, witness: an error-level call whose message contains
"noisy-warning" is neither captured, nor delivered, nor forwarded. -/
theorem C9_filtered_message_dropped_witness :
    c9Config.filterPatterns = some [JSPattern.str "noisy-warning"]
  ∧ JSPattern.str "noisy-warning" ∈ [JSPattern.str "noisy-warning"]
  ∧ strIncludes (String.intercalate " "
      ([ConsoleArg.str "some noisy-warning text"].map stringifyArg))
      "noisy-warning" = true
  ∧ processMessage c9Config [] ConsoleLevel.error
      [ConsoleArg.str "some noisy-warning text"] 7 (some "stk") =
      { capturedMessages := [], delivered := [], reported := [] } :=
  ⟨rfl, List.mem_singleton.mpr rfl, by decide,
   C9_filtered_message_dropped c9Config [] ConsoleLevel.error
     [ConsoleArg.str "some noisy-warning text"] 7 (some "stk")
     [JSPattern.str "noisy-warning"] "noisy-warning" rfl
     (List.mem_singleton.mpr rfl) (by decide)⟩

/-- Claim C10: a rule one of whose condition callbacks throws is treated
as not matching (`matchesFix` returns false instead of propagating), and
the `findFix` scan continues past it, so a later rule can still be
returned as the match. -/
theorem C10_throwing_condition_skipped (error : JSError) (fix : ErrorFix)
    (conds : List (Option Bool)) (hc : fix.conditions = some conds)
    (hthrow : none ∈ conds) :
    matchesFix error fix = false
  ∧ ∀ (l1 l2 : List ErrorFix),
      (∀ f ∈ l1, matchesFix error f = false) →
      findFix (l1 ++ fix :: l2) error = findFix l2 error := by
  have hall : conds.all (fun c => c == some true) = false := by
    apply Bool.eq_false_iff.mpr
    intro hcontra
    have h1 := List.all_eq_true.mp hcontra none hthrow
    simp at h1
  have hmatch : matchesFix error fix = false := by
    simp only [matchesFix]
    split
    · rfl
    · simpa [hc] using hall
  refine ⟨hmatch, ?_⟩
  intro l1 l2
  induction l1 with
  | nil =>
    intro _
    simp [findFix, List.find?_cons, hmatch]
  | cons a t ih =>
    intro hl1
    have ha := hl1 a (List.mem_cons_self a t)
    have ht : ∀ f ∈ t, matchesFix error f = false := fun f hf =>
      hl1 f (List.mem_cons_of_mem a hf)
    simpa [findFix, List.find?_cons, ha] using ih ht

/-- A rule whose pattern matches but whose condition callback throws. -/
def c10ThrowFix : ErrorFix :=
  { id := "throwing-condition", name := "Throwing Condition Rule",
    description := "pattern matches, condition throws",
    errorPattern := some (.str "boom"),
    errorTypes := ["runtime_error"], hasFixFunction := true,
    conditions := some [none], priority := 9, category := "runtime",
    successRate := some 0, lastUsed := some 0, timesUsed := some 0 }

/-- A lower-priority rule matching the same failure. -/
def c10LaterFix : ErrorFix :=
  { id := "undefined-variable", name := "Undefined Variable Recovery",
    description := "Attempts to handle undefined variable errors gracefully",
    errorPattern := some (.str "boom"),
    errorTypes := ["runtime_error"], hasFixFunction := true,
    conditions := none, priority := 3, category := "runtime",
    successRate := some 0, lastUsed := some 0, timesUsed := some 0 }

/-- The failure both rules test against. -/
def c10Error : JSError := { message := "boom happened", stack := none }

/-- Claim C10, witness: with a throwing condition the higher-priority rule
does not match and the scan reaches the next rule. -/
theorem C10_throwing_condition_skipped_witness :
    c10ThrowFix.conditions = some [none]
  ∧ (none : Option Bool) ∈ [(none : Option Bool)]
  ∧ matchesFix c10Error c10ThrowFix = false
  ∧ findFix ([] ++ c10ThrowFix :: [c10LaterFix]) c10Error
      = findFix [c10LaterFix] c10Error
  ∧ (findFix [c10LaterFix] c10Error).map (fun f => f.id)
      = some "undefined-variable" :=
  ⟨rfl, List.mem_singleton.mpr rfl,
   (C10_throwing_condition_skipped c10Error c10ThrowFix [none] rfl
     (List.mem_singleton.mpr rfl)).1,
   (C10_throwing_condition_skipped c10Error c10ThrowFix [none] rfl
     (List.mem_singleton.mpr rfl)).2 [] [c10LaterFix]
     (fun f hf => absurd hf (List.not_mem_nil f)),
   by decide⟩

/-- Auxiliary: `sortFixesByPriority` always yields a descending-priority
list. -/
lemma sortFixesByPriority_sorted (l : List ErrorFix) :
    SortedByPriority (sortFixesByPriority l) := by
  unfold SortedByPriority sortFixesByPriority
  haveI : IsTotal ErrorFix (fun a b => b.priority ≤ a.priority) :=
    ⟨fun a b => le_total b.priority a.priority⟩
  haveI : IsTrans ErrorFix (fun a b => b.priority ≤ a.priority) :=
    ⟨fun _ _ _ hab hbc => le_trans hbc hab⟩
  exact List.sorted_insertionSort _ _

/-- Auxiliary: in a descending-priority list containing a matching rule
`r1`, `findFix` returns a matching rule of priority at least
`r1.priority`. -/
lemma findFix_sorted_le (error : JSError) :
    ∀ (l : List ErrorFix) (r1 : ErrorFix),
      List.Pairwise (fun a b => b.priority ≤ a.priority) l →
      r1 ∈ l → matchesFix error r1 = true →
      ∃ r, findFix l error = some r ∧ matchesFix error r = true
        ∧ r1.priority ≤ r.priority := by
  intro l
  induction l with
  | nil => intro r1 _ h1 _; exact absurd h1 (List.not_mem_nil r1)
  | cons a t ih =>
    intro r1 hp h1 hm
    rcases List.pairwise_cons.mp hp with ⟨hhead, htail⟩
    by_cases ha : matchesFix error a = true
    · refine ⟨a, by simp [findFix, List.find?_cons, ha], ha, ?_⟩
      rcases List.mem_cons.mp h1 with rfl | h1t
      · exact le_refl _
      · exact hhead r1 h1t
    · have ha' : matchesFix error a = false := Bool.eq_false_iff.mpr ha
      rcases List.mem_cons.mp h1 with rfl | h1t
      · exact absurd hm ha
      · obtain ⟨r, hr, hrm, hrle⟩ := ih r1 htail h1t hm
        exact ⟨r, by simpa [findFix, List.find?_cons, ha'] using hr, hrm, hrle⟩

/-- Claim C5: every successful registration leaves the registry sorted by
descending priority, and on a sorted registry containing two rules with
priorities P1 > P2 that both match, `findFix` (which scans in order and
returns the first rule whose pattern and conditions succeed) returns a
matching rule of priority at least P1 — never the P2 rule, and exactly
the P1 rule whenever no third rule matches. -/
theorem C5_findFix_priority :
    (∀ (reg : FixRegistry) (fix : ErrorFix) (now : Nat),
      (registerFix reg fix now).2 = none →
      SortedByPriority (registerFix reg fix now).1.fixes)
  ∧ (∀ (fixes : List ErrorFix) (error : JSError) (r1 r2 : ErrorFix),
      SortedByPriority fixes → r1 ∈ fixes → r2 ∈ fixes →
      r2.priority < r1.priority →
      matchesFix error r1 = true → matchesFix error r2 = true →
      ∃ r, findFix fixes error = some r ∧ matchesFix error r = true
        ∧ r1.priority ≤ r.priority ∧ r ≠ r2
        ∧ ((∀ f ∈ fixes, matchesFix error f = true → f = r1 ∨ f = r2) →
            r = r1)) := by
  constructor
  · intro reg fix now h
    cases hv : hasRequiredFixFields fix
    · exfalso; simp [registerFix, hv] at h
    · cases hd : reg.fixes.any (fun f => f.id == fix.id)
      · have : (registerFix reg fix now).1.fixes
            = sortFixesByPriority (reg.fixes ++
                [{ fix with
                    successRate := some (fix.successRate.getD 0),
                    lastUsed := some (fix.lastUsed.getD now),
                    timesUsed := some (fix.timesUsed.getD 0) }]) := by
          simp [registerFix, hv, hd]
        rw [this]
        exact sortFixesByPriority_sorted _
      · exfalso; simp [registerFix, hv, hd] at h
  · intro fixes error r1 r2 hs h1 h2 hlt hm1 hm2
    obtain ⟨r, hr, hrm, hrle⟩ := findFix_sorted_le error fixes r1 hs h1 hm1
    have hne : r ≠ r2 := by
      intro heq
      rw [heq] at hrle
      exact absurd hrle (not_le.mpr hlt)
    refine ⟨r, hr, hrm, hrle, hne, ?_⟩
    intro huniq
    rcases huniq r (List.mem_of_find?_eq_some hr) hrm with h | h
    · exact h
    · exact absurd h hne

/-- The failure event of the two-rule priority scenario. -/
def c5Error : JSError := { message := "Network Error: fetch failed", stack := none }

/-- The higher-priority matching rule. -/
def c5HiRule : ErrorFix :=
  { id := "network-error", name := "Network Error Recovery",
    description := "Handles network connectivity issues",
    errorPattern := some (.str "Network Error"),
    errorTypes := ["runtime_error", "unhandled_rejection"],
    hasFixFunction := true, conditions := none, priority := 4,
    category := "runtime", successRate := some 0, lastUsed := some 0,
    timesUsed := some 0 }

/-- The lower-priority matching rule. -/
def c5LoRule : ErrorFix :=
  { id := "undefined-fetch", name := "Fetch Failure Advisory",
    description := "Advises on failed fetches",
    errorPattern := some (.str "fetch"),
    errorTypes := ["runtime_error"],
    hasFixFunction := true, conditions := none, priority := 3,
    category := "runtime", successRate := some 0, lastUsed := some 0,
    timesUsed := some 0 }

/-- Claim C5, witness: on the sorted two-rule registry where both rules
match, the scan returns the higher-priority rule. -/
theorem C5_findFix_priority_witness :
    (SortedByPriority [c5HiRule, c5LoRule]
      ∧ c5LoRule.priority < c5HiRule.priority
      ∧ matchesFix c5Error c5HiRule = true
      ∧ matchesFix c5Error c5LoRule = true)
  ∧ (∃ r, findFix [c5HiRule, c5LoRule] c5Error = some r
      ∧ matchesFix c5Error r = true
      ∧ c5HiRule.priority ≤ r.priority ∧ r ≠ c5LoRule
      ∧ ((∀ f ∈ [c5HiRule, c5LoRule], matchesFix c5Error f = true →
            f = c5HiRule ∨ f = c5LoRule) → r = c5HiRule)) := by
  have hsorted : SortedByPriority [c5HiRule, c5LoRule] := by
    unfold SortedByPriority
    refine List.pairwise_cons.mpr ⟨?_, List.pairwise_singleton _ _⟩
    intro b hb
    rw [List.mem_singleton.mp hb]
    decide
  refine ⟨⟨hsorted, by decide, by decide, by decide⟩, ?_⟩
  exact C5_findFix_priority.2 [c5HiRule, c5LoRule] c5Error c5HiRule c5LoRule
    hsorted (List.mem_cons_self _ _)
    (List.mem_cons_of_mem _ (List.mem_cons_self _ _))
    (by decide) (by decide) (by decide)
